import Mathlib

/-!
Verification of the `sc_sock` socket/pipe/poller library against its
specification.  The repository ships the public interface
(`src/socket/sc_sock.h`): result sentinels, event masks, and the
`sc_sock`, `sc_sock_pipe`, `sc_sock_poll` record layouts are translated
directly from that header.  The bodies of the operations are not in the
repository, so each operation is modelled from the specification: an
operation is a pure function of the object's state and an abstract
outcome reported by the operating system for the one OS call the
operation wraps.
-/

namespace ScSock

/-! ### Result sentinels: `enum sc_sock_rc` (sc_sock.h lines 55-61). -/

def SC_SOCK_WANT_READ : Int := -4

def SC_SOCK_WANT_WRITE : Int := -2

def SC_SOCK_ERROR : Int := -1

def SC_SOCK_OK : Int := 0

/-! ### Event masks: `enum sc_sock_ev` (sc_sock.h lines 63-68). -/

def SC_SOCK_NONE : Nat := 0

def SC_SOCK_READ : Nat := 1

def SC_SOCK_WRITE : Nat := 2

/-! ### Bounded error buffer: `char err[128]` in every object.

A C string living in a fixed 128-byte array holds at most 127 characters
plus the terminator.  Storing a message truncates it to the capacity;
no allocation ever happens. -/

def SC_SOCK_ERR_CAP : Nat := 128

/-- Store a message into the fixed-capacity error buffer: keep at most
127 characters (the 128th byte is the C string terminator). -/
def setErr (msg : List Char) : List Char := msg.take (SC_SOCK_ERR_CAP - 1)

/-- The buffer invariant: the stored message fits the fixed array. -/
def errBounded (e : List Char) : Prop := e.length ≤ SC_SOCK_ERR_CAP - 1

/-! ### `struct sc_sock_fd` (sc_sock.h lines 77-83): the Handle. -/

structure sc_sock_fd where
  fd : Int
  op : Nat
  type : Int
  index : Int
deriving DecidableEq, Repr

/-! ### `struct sc_sock` (sc_sock.h lines 85-91). -/

structure sc_sock where
  fdt : sc_sock_fd
  blocking : Bool
  family : Int
  err : List Char
deriving DecidableEq, Repr

/-! ### `struct sc_sock_pipe` (sc_sock.h lines 234-239).

The struct embeds exactly one `sc_sock_fd` (the Handle, `fdt`) together
with a pair of raw descriptors `sc_sock_int fds[2]`. -/

structure sc_sock_pipe where
  fdt : sc_sock_fd
  fds : Int × Int
  err : List Char
deriving DecidableEq, Repr

/-- The Handle (`struct sc_sock_fd`) fields embedded in
`struct sc_sock_pipe`, read off the struct layout at sc_sock.h lines
234-239: exactly one, `fdt`.  The two channel ends `fds[2]` are raw
`sc_sock_int` descriptors, not Handles. -/
def sc_sock_pipe_handles (p : sc_sock_pipe) : List sc_sock_fd := [p.fdt]

/-! ### Abstract OS outcomes.

Each fallible operation wraps one OS call; its behaviour is a function
of the object's state and of what that call reported. -/

/-- Outcome the OS reports for a `send`/`recv` call. -/
inductive OsTransfer where
  | bytes (n : Nat)
  | wouldBlock
  | fail (msg : List Char)
deriving DecidableEq, Repr

/-- The OS error message carried by a transfer outcome, if any. -/
def OsTransfer.msg : OsTransfer → Option (List Char)
  | .fail m => some m
  | _ => none

/-- Outcome the OS reports for an `accept` call. -/
inductive OsAccept where
  | conn (fd : Int)
  | wouldBlock
  | fail (msg : List Char)
deriving DecidableEq, Repr

def OsAccept.msg : OsAccept → Option (List Char)
  | .fail m => some m
  | _ => none

/-- Outcome the OS reports for a `connect` call. -/
inductive OsConnect where
  | done
  | inProgress
  | fail (msg : List Char)
deriving DecidableEq, Repr

def OsConnect.msg : OsConnect → Option (List Char)
  | .fail m => some m
  | _ => none

/-- Outcome of a plain success-or-failure OS call (close, setsockopt,
kernel registration, ...). -/
inductive OsCtl where
  | ok
  | fail (msg : List Char)
deriving DecidableEq, Repr

def OsCtl.msg : OsCtl → Option (List Char)
  | .fail m => some m
  | _ => none

/-! ### Socket operations, modelled from the spec. -/

/-- Modelled from the spec (body of `sc_sock_recv` is not in src/):
thin pass-through to the OS `recv` with uniform result mapping —
non-negative byte count on success (0 = orderly peer shutdown),
`SC_SOCK_WANT_READ` on would-block (no bytes transferred, not a
failure, state untouched), `SC_SOCK_ERROR` on hard failure with the
message captured into the bounded buffer. -/
def sc_sock_recv (s : sc_sock) (os : OsTransfer) : Int × sc_sock :=
  match os with
  | .bytes n => ((n : Int), s)
  | .wouldBlock => (SC_SOCK_WANT_READ, s)
  | .fail m => (SC_SOCK_ERROR, { s with err := setErr m })

/-- Modelled from the spec (body of `sc_sock_send` is not in src/):
same mapping as `recv` with `SC_SOCK_WANT_WRITE` on would-block. -/
def sc_sock_send (s : sc_sock) (os : OsTransfer) : Int × sc_sock :=
  match os with
  | .bytes n => ((n : Int), s)
  | .wouldBlock => (SC_SOCK_WANT_WRITE, s)
  | .fail m => (SC_SOCK_ERROR, { s with err := setErr m })

/-- Fixed message for a would-block condition surfacing on a blocking
socket (an unexpected hard failure path). -/
def wouldBlockMsg : List Char := ['w', 'o', 'u', 'l', 'd', ' ', 'b', 'l', 'o', 'c', 'k']

/-- Modelled from the spec (body of `sc_sock_accept` is not in src/):
accepts one pending connection into a fresh caller-owned socket,
returning `SC_SOCK_OK`; when the listener is non-blocking and nothing
is pending it returns the same `SC_SOCK_WANT_READ` sentinel `recv`
uses; any other failure is `SC_SOCK_ERROR` with the OS message. -/
def sc_sock_accept (s : sc_sock) (os : OsAccept) : Int × sc_sock :=
  match os with
  | .conn _ => (SC_SOCK_OK, s)
  | .wouldBlock =>
    if s.blocking then (SC_SOCK_ERROR, { s with err := setErr wouldBlockMsg })
    else (SC_SOCK_WANT_READ, s)
  | .fail m => (SC_SOCK_ERROR, { s with err := setErr m })

/-- Modelled from the spec (body of `sc_sock_connect` is not in src/):
for a non-blocking socket a connect that cannot complete synchronously
is not an error — it signals in-progress with `SC_SOCK_WANT_WRITE`
(the caller registers for write-readiness and later calls
`sc_sock_finish_connect`); hard failures return `SC_SOCK_ERROR` with
the OS message. -/
def sc_sock_connect (s : sc_sock) (os : OsConnect) : Int × sc_sock :=
  match os with
  | .done => (SC_SOCK_OK, s)
  | .inProgress =>
    if s.blocking then (SC_SOCK_ERROR, { s with err := setErr wouldBlockMsg })
    else (SC_SOCK_WANT_WRITE, s)
  | .fail m => (SC_SOCK_ERROR, { s with err := setErr m })

/-- Conceptual client-side connection phase of the spec's state machine
(`Connecting → Connected`); the C struct keeps no such field, the state
lives in the OS socket. -/
inductive SockState where
  | connecting
  | connected
deriving DecidableEq, Repr

/-- Modelled from the spec (body of `sc_sock_finish_connect` is not in
src/): called after the poller reports the handle writable; reads the
socket's pending-error status (`getsockopt SO_ERROR`, here the
`pendingErr` argument).  Fails with the underlying OS error exactly
when the asynchronous connect failed; otherwise returns `SC_SOCK_OK`
and the socket is connected. -/
def sc_sock_finish_connect (s : sc_sock) (pendingErr : Option (List Char)) :
    Int × sc_sock × SockState :=
  match pendingErr with
  | none => (SC_SOCK_OK, s, SockState.connected)
  | some m => (SC_SOCK_ERROR, { s with err := setErr m }, SockState.connecting)

/-- Modelled from the spec (body of `sc_sock_term` is not in src/):
closes the descriptor; `0` on success, negative with a captured
message on failure. -/
def sc_sock_term (s : sc_sock) (os : OsCtl) : Int × sc_sock :=
  match os with
  | .ok => (SC_SOCK_OK, s)
  | .fail m => (SC_SOCK_ERROR, { s with err := setErr m })

/-! ### Pipe operations, modelled from the spec. -/

/-- Outcome of creating the pipe's descriptor pair. -/
inductive OsPipeCreate where
  | ok (fd0 fd1 : Int)
  | fail (msg : List Char)
deriving DecidableEq, Repr

def OsPipeCreate.msg : OsPipeCreate → Option (List Char)
  | .fail m => some m
  | _ => none

/-- Outcome of a blocking pipe read/write (pipes never would-block by
design: they are blocking synchronization primitives). -/
inductive OsPipeTransfer where
  | bytes (n : Nat)
  | fail (msg : List Char)
deriving DecidableEq, Repr

def OsPipeTransfer.msg : OsPipeTransfer → Option (List Char)
  | .fail m => some m
  | _ => none

/-- Modelled from the spec (body of `sc_sock_pipe_init` is not in
src/): creates both ends of the descriptor pair, storing them in
`fds[2]`; the single embedded Handle wraps the read end and carries
the user tag. -/
def sc_sock_pipe_init (type : Int) (os : OsPipeCreate) : Int × sc_sock_pipe :=
  match os with
  | .ok a b =>
    (SC_SOCK_OK,
     { fdt := { fd := a, op := SC_SOCK_NONE, type := type, index := 0 },
       fds := (a, b), err := [] })
  | .fail m =>
    (SC_SOCK_ERROR,
     { fdt := { fd := -1, op := SC_SOCK_NONE, type := type, index := 0 },
       fds := (-1, -1), err := setErr m })

/-- Modelled from the spec (body of `sc_sock_pipe_term` is not in
src/): closes both ends of the pair; the third component lists the
descriptors closed by the call. -/
def sc_sock_pipe_term (p : sc_sock_pipe) (os : OsCtl) : Int × sc_sock_pipe × List Int :=
  match os with
  | .ok => (SC_SOCK_OK, p, [p.fds.1, p.fds.2])
  | .fail m => (SC_SOCK_ERROR, { p with err := setErr m }, [p.fds.1, p.fds.2])

/-- Modelled from the spec (body of `sc_sock_pipe_write` is not in
src/): blocking write, returns the written byte count or
`SC_SOCK_ERROR` with the message captured. -/
def sc_sock_pipe_write (p : sc_sock_pipe) (os : OsPipeTransfer) : Int × sc_sock_pipe :=
  match os with
  | .bytes n => ((n : Int), p)
  | .fail m => (SC_SOCK_ERROR, { p with err := setErr m })

/-- Modelled from the spec (body of `sc_sock_pipe_read` is not in
src/): blocking read, same result mapping as the write side. -/
def sc_sock_pipe_read (p : sc_sock_pipe) (os : OsPipeTransfer) : Int × sc_sock_pipe :=
  match os with
  | .bytes n => ((n : Int), p)
  | .fail m => (SC_SOCK_ERROR, { p with err := setErr m })

/-! ### Poller, modelled from the spec.

One registration per descriptor: descriptor, current interest mask,
and the opaque user data supplied at `add`.  The event-storage buffer
`results` is repopulated from scratch by each successful `wait`. -/

structure PollEntry where
  fd : Int
  mask : Nat
  data : Int
deriving DecidableEq, Repr

/-- Layout of `struct sc_sock_poll` (sc_sock.h lines 293-328):
registration bookkeeping, a capacity-managed event buffer and the
bounded error buffer. -/
structure sc_sock_poll where
  entries : List PollEntry
  cap : Nat
  results : List (Int × Nat)
  err : List Char
deriving DecidableEq, Repr

/-- The registration for descriptor `fd`, if any. -/
def findEntry (p : sc_sock_poll) (fd : Int) : Option PollEntry :=
  p.entries.find? (fun e => e.fd == fd)

/-- Remove the directions `ev` from interest mask `m`
(`m &= ~ev` restricted to the two mask bits). -/
def maskDel (m ev : Nat) : Nat := m &&& (3 ^^^ (ev &&& 3))

/-- Modelled from the spec (body of `sc_sock_poll_add` is not in
src/): registers or updates interest.  A new descriptor appends an
entry (growing capacity as needed); a descriptor already registered
with a different interest has the differing direction(s) OR-ed into
its existing registration — no duplicate entry, and the direction
already registered is never cleared. -/
def sc_sock_poll_add (p : sc_sock_poll) (fdt : sc_sock_fd) (events : Nat)
    (data : Int) (os : OsCtl) : Int × sc_sock_poll :=
  match os with
  | .fail m => (SC_SOCK_ERROR, { p with err := setErr m })
  | .ok =>
    if p.entries.any (fun e => e.fd == fdt.fd) then
      (SC_SOCK_OK,
       { p with entries := p.entries.map (fun e =>
           if e.fd == fdt.fd then { e with mask := e.mask ||| events, data := data }
           else e) })
    else
      (SC_SOCK_OK,
       { p with entries := p.entries ++ [{ fd := fdt.fd, mask := events, data := data }],
                cap := max p.cap (p.entries.length + 1) })

/-- Modelled from the spec (body of `sc_sock_poll_del` is not in
src/): removes the given direction(s) from the descriptor's interest;
a registration whose mask becomes empty is removed entirely from the
bookkeeping (its slot compacted away for reuse). -/
def sc_sock_poll_del (p : sc_sock_poll) (fdt : sc_sock_fd) (events : Nat)
    (os : OsCtl) : Int × sc_sock_poll :=
  match os with
  | .fail m => (SC_SOCK_ERROR, { p with err := setErr m })
  | .ok =>
    let reduced := p.entries.map (fun e =>
      if e.fd == fdt.fd then { e with mask := maskDel e.mask events } else e)
    (SC_SOCK_OK, { p with entries := reduced.filter (fun e => e.mask != 0) })

/-- Readiness condition the OS reports for one polled descriptor. -/
structure OsEvent where
  readable : Bool
  writable : Bool
  closedOrError : Bool
deriving DecidableEq, Repr

/-- Modelled from the spec (backend event translation is not in src/):
map the OS readiness condition to the `sc_sock_ev` mask.  A closed or
errored descriptor reports `SC_SOCK_READ | SC_SOCK_WRITE` together so
any read or write attempt reveals the terminal condition. -/
def eventMaskOf (ev : OsEvent) : Nat :=
  if ev.closedOrError then SC_SOCK_READ ||| SC_SOCK_WRITE
  else
    (if ev.readable then SC_SOCK_READ else SC_SOCK_NONE) |||
    (if ev.writable then SC_SOCK_WRITE else SC_SOCK_NONE)

/-- Outcome the OS reports for one wait call: either the readiness of
the polled descriptors, or a hard polling failure. -/
inductive OsWait where
  | ready (l : List (Int × OsEvent))
  | fail (msg : List Char)
deriving DecidableEq, Repr

def OsWait.msg : OsWait → Option (List Char)
  | .fail m => some m
  | _ => none

/-- The ready entries of one wait call: registered descriptors the OS
reported with a non-empty event mask, paired as (user data, mask).
Only registered entries are consulted — the backend polls exactly the
registered set. -/
def readyResults (entries : List PollEntry) (l : List (Int × OsEvent)) :
    List (Int × Nat) :=
  entries.filterMap (fun e =>
    match l.find? (fun q => q.1 == e.fd) with
    | some q => if eventMaskOf q.2 != 0 then some (e.data, eventMaskOf q.2) else none
    | none => none)

/-- How a timeout argument is interpreted by the backend wait call. -/
inductive WaitMode where
  | pollOnce
  | blockIndefinitely
  | upTo (ms : Nat)
deriving DecidableEq, Repr

/-- Modelled from the spec: zero = poll once and return, negative =
block indefinitely, positive = block up to that many milliseconds. -/
def waitMode (timeout : Int) : WaitMode :=
  if timeout = 0 then WaitMode.pollOnce
  else if timeout < 0 then WaitMode.blockIndefinitely
  else WaitMode.upTo timeout.toNat

/-- Modelled from the spec (body of `sc_sock_poll_wait` is not in
src/): repopulates the event buffer with this call's ready entries and
returns their count (zero is a valid empty result); a hard polling
failure returns `SC_SOCK_ERROR` with the message captured.  Membership
(`entries`) is never mutated. -/
def sc_sock_poll_wait (p : sc_sock_poll) (timeout : Int) (os : OsWait) :
    Int × sc_sock_poll :=
  match os with
  | .fail m => (SC_SOCK_ERROR, { p with err := setErr m })
  | .ready l =>
    (((readyResults p.entries l).length : Int),
     { p with results := readyResults p.entries l })

/-- Accessor `sc_sock_poll_data`: user data of the ready entry at
index `i` (valid for `i` below the count the last wait returned). -/
def sc_sock_poll_data (p : sc_sock_poll) (i : Nat) : Int :=
  (p.results.getD i (0, 0)).1

/-- Accessor `sc_sock_poll_event`: event mask of the ready entry at
index `i` (valid for `i` below the count the last wait returned). -/
def sc_sock_poll_event (p : sc_sock_poll) (i : Nat) : Nat :=
  (p.results.getD i (0, 0)).2

/-- All user-data values reported across a sequence of wait calls,
each with its timeout and OS outcome: a failing wait (negative count)
reports nothing. -/
def reportedData : sc_sock_poll → List (Int × OsWait) → List Int
  | _, [] => []
  | p, w :: ws =>
    (if 0 ≤ (sc_sock_poll_wait p w.1 w.2).1 then
      ((sc_sock_poll_wait p w.1 w.2).2.results.map (fun r => r.1))
     else []) ++ reportedData (sc_sock_poll_wait p w.1 w.2).2 ws

/-! ### The result convention. -/

/-- A return value is one of the three named negative sentinels. -/
def isSentinel (r : Int) : Prop :=
  r = SC_SOCK_WANT_READ ∨ r = SC_SOCK_WANT_WRITE ∨ r = SC_SOCK_ERROR

/-- The uniform result convention: non-negative success value (byte
count or 0), or a named negative sentinel. -/
def resultConvention (r : Int) : Prop := 0 ≤ r ∨ isSentinel r

/-- What one integer-returning operation guarantees about its result
`r` and the transition of the owning object's error buffer from
`oldErr` to `newErr`, given the OS message `osMsg` (if the wrapped OS
call failed hard): the result obeys the convention; the buffer stays
within its fixed capacity (no allocation); a hard OS failure yields
`SC_SOCK_ERROR` with the message captured (truncated) into the buffer;
a would-block sentinel is not a failure and leaves the buffer
untouched. -/
def opConv (oldErr : List Char) (r : Int) (newErr : List Char)
    (osMsg : Option (List Char)) : Prop :=
  resultConvention r ∧
  (errBounded oldErr → errBounded newErr) ∧
  (∀ m, osMsg = some m → r = SC_SOCK_ERROR ∧ newErr = setErr m) ∧
  ((r = SC_SOCK_WANT_READ ∨ r = SC_SOCK_WANT_WRITE) → newErr = oldErr)

/-! ### Concrete objects used to instantiate the theorems. -/

def sock0 : sc_sock :=
  { fdt := { fd := 3, op := SC_SOCK_NONE, type := 0, index := 0 },
    blocking := false, family := 2, err := [] }

def pipe0 : sc_sock_pipe :=
  { fdt := { fd := 7, op := SC_SOCK_NONE, type := 1, index := 0 },
    fds := (7, 8), err := [] }

def fdt0 : sc_sock_fd := { fd := 5, op := SC_SOCK_NONE, type := 0, index := 0 }

def entry0 : PollEntry := { fd := 5, mask := 1, data := 42 }

def poll0 : sc_sock_poll :=
  { entries := [entry0], cap := 4, results := [], err := [] }

def ev0 : OsEvent := { readable := false, writable := false, closedOrError := true }

def waitList0 : List (Int × OsEvent) := [(5, ev0)]

/-- `poll0` after a wait that saw descriptor 5 closed or errored. -/
def poll0w : sc_sock_poll := { poll0 with results := [(42, 3)] }

/-- `poll0` after the single registered direction of descriptor 5 was
deleted: the registration is gone. -/
def poll0d : sc_sock_poll := { poll0 with entries := [] }

/-- `poll0` after a second direction for descriptor 5 was added with
fresh user data. -/
def poll0a : sc_sock_poll := { poll0 with entries := [{ fd := 5, mask := 3, data := 43 }] }

/-! ## Helper lemmas -/

theorem errBounded_setErr (m : List Char) : errBounded (setErr m) := by
  unfold errBounded setErr SC_SOCK_ERR_CAP
  rw [List.length_take]
  omega

theorem opConv_ok (e : List Char) (r : Int) (h : 0 ≤ r) : opConv e r e none := by
  refine ⟨Or.inl h, fun hb => hb, ?_, fun _ => rfl⟩
  intro m hm
  exact absurd hm (by simp)

theorem opConv_wantRead (e : List Char) : opConv e SC_SOCK_WANT_READ e none := by
  refine ⟨Or.inr (Or.inl rfl), fun hb => hb, ?_, fun _ => rfl⟩
  intro m hm
  exact absurd hm (by simp)

theorem opConv_wantWrite (e : List Char) : opConv e SC_SOCK_WANT_WRITE e none := by
  refine ⟨Or.inr (Or.inr (Or.inl rfl)), fun hb => hb, ?_, fun _ => rfl⟩
  intro m hm
  exact absurd hm (by simp)

theorem opConv_fail (e m : List Char) : opConv e SC_SOCK_ERROR (setErr m) (some m) := by
  refine ⟨Or.inr (Or.inr (Or.inr rfl)), fun _ => errBounded_setErr m, ?_, ?_⟩
  · intro m2 hm
    injection hm with h2
    subst h2
    exact ⟨rfl, rfl⟩
  · intro h
    rcases h with h | h <;> exact absurd h (by decide)

theorem opConv_hardErr (e m : List Char) : opConv e SC_SOCK_ERROR (setErr m) none := by
  refine ⟨Or.inr (Or.inr (Or.inr rfl)), fun _ => errBounded_setErr m, ?_, ?_⟩
  · intro m2 hm
    exact absurd hm (by simp)
  · intro h
    rcases h with h | h <;> exact absurd h (by decide)

theorem add_ok_entries_existing (p : sc_sock_poll) (fdt : sc_sock_fd) (events : Nat)
    (d : Int) (hany : p.entries.any (fun e => e.fd == fdt.fd) = true) :
    sc_sock_poll_add p fdt events d OsCtl.ok =
      (SC_SOCK_OK,
       { p with
           entries := p.entries.map (fun e =>
             if e.fd == fdt.fd then { e with mask := e.mask ||| events, data := d }
             else e) }) := by
  simp [sc_sock_poll_add, hany]

theorem add_ok_entries_new (p : sc_sock_poll) (fdt : sc_sock_fd) (events : Nat)
    (d : Int) (hany : ¬ p.entries.any (fun e => e.fd == fdt.fd) = true) :
    sc_sock_poll_add p fdt events d OsCtl.ok =
      (SC_SOCK_OK,
       { p with
           entries := p.entries ++ [{ fd := fdt.fd, mask := events, data := d }],
           cap := max p.cap (p.entries.length + 1) }) := by
  simp only [sc_sock_poll_add, if_neg hany]

theorem del_ok_eq (p : sc_sock_poll) (fdt : sc_sock_fd) (events : Nat) :
    sc_sock_poll_del p fdt events OsCtl.ok =
      (SC_SOCK_OK,
       { p with
           entries := (p.entries.map (fun e =>
             if e.fd == fdt.fd then { e with mask := maskDel e.mask events }
             else e)).filter (fun e => e.mask != 0) }) := rfl

theorem wait_ready_eq (p : sc_sock_poll) (t : Int) (l : List (Int × OsEvent)) :
    sc_sock_poll_wait p t (OsWait.ready l) =
      (((readyResults p.entries l).length : Int),
       { p with results := readyResults p.entries l }) := rfl

theorem wait_entries_eq (p : sc_sock_poll) (t : Int) (os : OsWait) :
    (sc_sock_poll_wait p t os).2.entries = p.entries := by
  cases os <;> rfl

theorem mem_readyResults {entries : List PollEntry} {l : List (Int × OsEvent)}
    {x : Int × Nat} (hx : x ∈ readyResults entries l) :
    ∃ e ∈ entries, ∃ q ∈ l, x = (e.data, eventMaskOf q.2) ∧ eventMaskOf q.2 ≠ 0 := by
  unfold readyResults at hx
  rw [List.mem_filterMap] at hx
  obtain ⟨e, he, hfe⟩ := hx
  cases hq : l.find? (fun q => q.1 == e.fd) with
  | none => rw [hq] at hfe; cases hfe
  | some q =>
    rw [hq] at hfe
    have hfe2 : (if (eventMaskOf q.2 != 0) = true then some (e.data, eventMaskOf q.2)
        else none) = some x := hfe
    by_cases hz : (eventMaskOf q.2 != 0) = true
    · rw [if_pos hz] at hfe2
      injection hfe2 with h3
      exact ⟨e, he, q, List.mem_of_find?_eq_some hq, h3.symm, by simpa using hz⟩
    · rw [if_neg hz] at hfe2
      cases hfe2

theorem find?_map_update (fd : Int) (g : PollEntry → PollEntry)
    (hg : ∀ x, (g x).fd = x.fd) (es : List PollEntry) :
    ∀ e, es.find? (fun x => x.fd == fd) = some e →
      (es.map (fun x => if x.fd == fd then g x else x)).find?
        (fun x => x.fd == fd) = some (g e) := by
  induction es with
  | nil => intro e he; cases he
  | cons a es ih =>
    intro e he
    by_cases ha : (a.fd == fd) = true
    · rw [List.find?_cons_of_pos (p := fun x : PollEntry => x.fd == fd) es ha] at he
      injection he with he2
      subst he2
      rw [List.map_cons, if_pos ha]
      exact List.find?_cons_of_pos (p := fun x : PollEntry => x.fd == fd) _
        (by show ((g a).fd == fd) = true; rw [hg]; exact ha)
    · rw [List.find?_cons_of_neg (p := fun x : PollEntry => x.fd == fd) es ha] at he
      rw [List.map_cons, if_neg ha,
        List.find?_cons_of_neg (p := fun x : PollEntry => x.fd == fd) _ ha]
      exact ih e he

theorem reportedData_not_mem (d : Int) (ws : List (Int × OsWait)) :
    ∀ p : sc_sock_poll, (∀ e ∈ p.entries, e.data ≠ d) → d ∉ reportedData p ws := by
  induction ws with
  | nil =>
    intro p hp
    simp [reportedData]
  | cons w ws ih =>
    intro p hp
    obtain ⟨t2, os2⟩ := w
    have hunf : reportedData p ((t2, os2) :: ws) =
        (if 0 ≤ (sc_sock_poll_wait p t2 os2).1 then
          ((sc_sock_poll_wait p t2 os2).2.results.map (fun r => r.1))
         else []) ++ reportedData (sc_sock_poll_wait p t2 os2).2 ws := rfl
    rw [hunf]
    intro hmem
    rw [List.mem_append] at hmem
    rcases hmem with hmem | hmem
    · rcases os2 with l | m
      · have h0 : (0 : Int) ≤ (sc_sock_poll_wait p t2 (OsWait.ready l)).1 := by
          rw [wait_ready_eq]
          exact Int.natCast_nonneg _
        rw [if_pos h0, wait_ready_eq] at hmem
        rw [List.mem_map] at hmem
        obtain ⟨r, hr, hrd⟩ := hmem
        obtain ⟨e, he, q, hq, hx, hnz⟩ := mem_readyResults hr
        apply hp e he
        rw [← hrd, hx]
      · have h0 : ¬ (0 : Int) ≤ (sc_sock_poll_wait p t2 (OsWait.fail m)).1 := by
          change ¬ (0 : Int) ≤ SC_SOCK_ERROR
          decide
        rw [if_neg h0] at hmem
        cases hmem
    · exact ih (sc_sock_poll_wait p t2 os2).2
        (by rw [wait_entries_eq]; exact hp) hmem

/-! ## Claim theorems -/

/-- C10: the result sentinels have the concrete values
`SC_SOCK_WANT_READ = -4`, `SC_SOCK_WANT_WRITE = -2`,
`SC_SOCK_ERROR = -1`, `SC_SOCK_OK = 0`; the four values are pairwise
distinct, and no non-negative byte count can alias any of the three
negative sentinels. -/
theorem c10_sentinel_values (n : Int) (h : 0 ≤ n) :
    (SC_SOCK_WANT_READ = -4 ∧ SC_SOCK_WANT_WRITE = -2 ∧
     SC_SOCK_ERROR = -1 ∧ SC_SOCK_OK = 0) ∧
    (SC_SOCK_WANT_READ ≠ SC_SOCK_WANT_WRITE ∧ SC_SOCK_WANT_READ ≠ SC_SOCK_ERROR ∧
     SC_SOCK_WANT_READ ≠ SC_SOCK_OK ∧ SC_SOCK_WANT_WRITE ≠ SC_SOCK_ERROR ∧
     SC_SOCK_WANT_WRITE ≠ SC_SOCK_OK ∧ SC_SOCK_ERROR ≠ SC_SOCK_OK) ∧
    (n ≠ SC_SOCK_WANT_READ ∧ n ≠ SC_SOCK_WANT_WRITE ∧ n ≠ SC_SOCK_ERROR) := by
  refine ⟨⟨rfl, rfl, rfl, rfl⟩, by decide, ?_, ?_, ?_⟩ <;>
    (simp only [SC_SOCK_WANT_READ, SC_SOCK_WANT_WRITE, SC_SOCK_ERROR]; omega)

theorem c10_sentinel_values_witness :
    (SC_SOCK_WANT_READ = -4 ∧ SC_SOCK_WANT_WRITE = -2 ∧
     SC_SOCK_ERROR = -1 ∧ SC_SOCK_OK = 0) ∧
    (SC_SOCK_WANT_READ ≠ SC_SOCK_WANT_WRITE ∧ SC_SOCK_WANT_READ ≠ SC_SOCK_ERROR ∧
     SC_SOCK_WANT_READ ≠ SC_SOCK_OK ∧ SC_SOCK_WANT_WRITE ≠ SC_SOCK_ERROR ∧
     SC_SOCK_WANT_WRITE ≠ SC_SOCK_OK ∧ SC_SOCK_ERROR ≠ SC_SOCK_OK) ∧
    ((7 : Int) ≠ SC_SOCK_WANT_READ ∧ (7 : Int) ≠ SC_SOCK_WANT_WRITE ∧
     (7 : Int) ≠ SC_SOCK_ERROR) :=
  c10_sentinel_values 7 (by decide)

/-- C4: recv on a would-block condition returns the `SC_SOCK_WANT_READ`
sentinel, transferring no bytes and leaving the socket (and its error
buffer) untouched; a return of 0 denotes orderly peer shutdown and is
distinct from the sentinel, which is never zero. -/
theorem c4_recv_would_block_vs_shutdown (s : sc_sock) :
    (sc_sock_recv s OsTransfer.wouldBlock).1 = SC_SOCK_WANT_READ ∧
    (sc_sock_recv s OsTransfer.wouldBlock).2 = s ∧
    (sc_sock_recv s (OsTransfer.bytes 0)).1 = 0 ∧
    SC_SOCK_WANT_READ ≠ 0 :=
  ⟨rfl, rfl, rfl, by decide⟩

/-- C1 counterexample: recv on a would-block condition returns the
`SC_SOCK_WANT_READ` sentinel yet leaves the error buffer of a freshly
initialized socket empty — a transient sentinel return does not leave
a descriptive message, contradicting the claim that every sentinel
return does. -/
theorem c1_counterexample_transient_no_message :
    isSentinel (sc_sock_recv sock0 OsTransfer.wouldBlock).1 ∧
    (sc_sock_recv sock0 OsTransfer.wouldBlock).2.err = [] :=
  ⟨Or.inl rfl, rfl⟩

/-- C1 (amended): every integer-returning operation of Socket, Pipe,
and Poller returns either a non-negative success value (byte count or
0) or one of the named negative sentinels WantRead, WantWrite, Error;
on an Error return caused by a failing OS call the operation captures
that call's message, truncated into the owning object's fixed
128-byte error buffer (never allocating); a WantRead/WantWrite return
is a transient signal, not a failure, and leaves the error buffer
untouched; no operation aborts (every operation is a total
function). -/
theorem c1_result_convention :
    (∀ (s : sc_sock) (os : OsTransfer),
      opConv s.err (sc_sock_recv s os).1 (sc_sock_recv s os).2.err os.msg) ∧
    (∀ (s : sc_sock) (os : OsTransfer),
      opConv s.err (sc_sock_send s os).1 (sc_sock_send s os).2.err os.msg) ∧
    (∀ (s : sc_sock) (os : OsAccept),
      opConv s.err (sc_sock_accept s os).1 (sc_sock_accept s os).2.err os.msg) ∧
    (∀ (s : sc_sock) (os : OsConnect),
      opConv s.err (sc_sock_connect s os).1 (sc_sock_connect s os).2.err os.msg) ∧
    (∀ (s : sc_sock) (pe : Option (List Char)),
      opConv s.err (sc_sock_finish_connect s pe).1
        (sc_sock_finish_connect s pe).2.1.err pe) ∧
    (∀ (s : sc_sock) (os : OsCtl),
      opConv s.err (sc_sock_term s os).1 (sc_sock_term s os).2.err os.msg) ∧
    (∀ (t : Int) (os : OsPipeCreate),
      opConv [] (sc_sock_pipe_init t os).1 (sc_sock_pipe_init t os).2.err os.msg) ∧
    (∀ (p : sc_sock_pipe) (os : OsCtl),
      opConv p.err (sc_sock_pipe_term p os).1
        (sc_sock_pipe_term p os).2.1.err os.msg) ∧
    (∀ (p : sc_sock_pipe) (os : OsPipeTransfer),
      opConv p.err (sc_sock_pipe_write p os).1
        (sc_sock_pipe_write p os).2.err os.msg) ∧
    (∀ (p : sc_sock_pipe) (os : OsPipeTransfer),
      opConv p.err (sc_sock_pipe_read p os).1
        (sc_sock_pipe_read p os).2.err os.msg) ∧
    (∀ (p : sc_sock_poll) (fdt : sc_sock_fd) (ev : Nat) (d : Int) (os : OsCtl),
      opConv p.err (sc_sock_poll_add p fdt ev d os).1
        (sc_sock_poll_add p fdt ev d os).2.err os.msg) ∧
    (∀ (p : sc_sock_poll) (fdt : sc_sock_fd) (ev : Nat) (os : OsCtl),
      opConv p.err (sc_sock_poll_del p fdt ev os).1
        (sc_sock_poll_del p fdt ev os).2.err os.msg) ∧
    (∀ (p : sc_sock_poll) (t : Int) (os : OsWait),
      opConv p.err (sc_sock_poll_wait p t os).1
        (sc_sock_poll_wait p t os).2.err os.msg) := by
  refine ⟨?_, ?_, ?_, ?_, ?_, ?_, ?_, ?_, ?_, ?_, ?_, ?_, ?_⟩
  · intro s os
    cases os with
    | bytes n => exact opConv_ok s.err (n : Int) (by omega)
    | wouldBlock => exact opConv_wantRead s.err
    | fail m => exact opConv_fail s.err m
  · intro s os
    cases os with
    | bytes n => exact opConv_ok s.err (n : Int) (by omega)
    | wouldBlock => exact opConv_wantWrite s.err
    | fail m => exact opConv_fail s.err m
  · intro s os
    cases os with
    | conn fd => exact opConv_ok s.err SC_SOCK_OK (by decide)
    | fail m => exact opConv_fail s.err m
    | wouldBlock =>
      by_cases hb : s.blocking
      · have hred : sc_sock_accept s OsAccept.wouldBlock =
            (SC_SOCK_ERROR, { s with err := setErr wouldBlockMsg }) := by
          simp [sc_sock_accept, hb]
        rw [hred]
        exact opConv_hardErr s.err wouldBlockMsg
      · have hred : sc_sock_accept s OsAccept.wouldBlock = (SC_SOCK_WANT_READ, s) := by
          simp [sc_sock_accept, hb]
        rw [hred]
        exact opConv_wantRead s.err
  · intro s os
    cases os with
    | done => exact opConv_ok s.err SC_SOCK_OK (by decide)
    | fail m => exact opConv_fail s.err m
    | inProgress =>
      by_cases hb : s.blocking
      · have hred : sc_sock_connect s OsConnect.inProgress =
            (SC_SOCK_ERROR, { s with err := setErr wouldBlockMsg }) := by
          simp [sc_sock_connect, hb]
        rw [hred]
        exact opConv_hardErr s.err wouldBlockMsg
      · have hred : sc_sock_connect s OsConnect.inProgress = (SC_SOCK_WANT_WRITE, s) := by
          simp [sc_sock_connect, hb]
        rw [hred]
        exact opConv_wantWrite s.err
  · intro s pe
    cases pe with
    | none => exact opConv_ok s.err SC_SOCK_OK (by decide)
    | some m => exact opConv_fail s.err m
  · intro s os
    cases os with
    | ok => exact opConv_ok s.err SC_SOCK_OK (by decide)
    | fail m => exact opConv_fail s.err m
  · intro t os
    cases os with
    | ok a b => exact opConv_ok [] SC_SOCK_OK (by decide)
    | fail m => exact opConv_fail [] m
  · intro p os
    cases os with
    | ok => exact opConv_ok p.err SC_SOCK_OK (by decide)
    | fail m => exact opConv_fail p.err m
  · intro p os
    cases os with
    | bytes n => exact opConv_ok p.err (n : Int) (by omega)
    | fail m => exact opConv_fail p.err m
  · intro p os
    cases os with
    | bytes n => exact opConv_ok p.err (n : Int) (by omega)
    | fail m => exact opConv_fail p.err m
  · intro p fdt ev d os
    cases os with
    | fail m => exact opConv_fail p.err m
    | ok =>
      by_cases hc : p.entries.any (fun e => e.fd == fdt.fd) = true
      · rw [add_ok_entries_existing p fdt ev d hc]
        exact opConv_ok p.err SC_SOCK_OK (by decide)
      · rw [add_ok_entries_new p fdt ev d hc]
        exact opConv_ok p.err SC_SOCK_OK (by decide)
  · intro p fdt ev os
    cases os with
    | fail m => exact opConv_fail p.err m
    | ok =>
      rw [del_ok_eq p fdt ev]
      exact opConv_ok p.err SC_SOCK_OK (by decide)
  · intro p t os
    cases os with
    | fail m => exact opConv_fail p.err m
    | ready l =>
      rw [wait_ready_eq p t l]
      exact opConv_ok p.err _ (Int.natCast_nonneg _)

theorem c1_result_convention_witness :
    opConv sock0.err (sc_sock_recv sock0 OsTransfer.wouldBlock).1
      (sc_sock_recv sock0 OsTransfer.wouldBlock).2.err
      (OsTransfer.msg OsTransfer.wouldBlock) :=
  c1_result_convention.1 sock0 OsTransfer.wouldBlock

/-- C2: for a non-blocking socket, a connect that cannot complete
synchronously is not a hard error: it returns the in-progress signal
`SC_SOCK_WANT_WRITE` (distinct from `SC_SOCK_ERROR`, object
untouched); a subsequent finish-connect reads the pending-error
status, failing with the underlying OS error exactly when the
asynchronous connection failed, and otherwise succeeding with the
socket marked connected. -/
theorem c2_nonblocking_connect_two_phase (s : sc_sock) (h : s.blocking = false)
    (pendingErr : Option (List Char)) :
    ((sc_sock_connect s OsConnect.inProgress).1 = SC_SOCK_WANT_WRITE ∧
     (sc_sock_connect s OsConnect.inProgress).1 ≠ SC_SOCK_ERROR ∧
     (sc_sock_connect s OsConnect.inProgress).2 = s) ∧
    (((sc_sock_finish_connect s pendingErr).1 = SC_SOCK_ERROR ↔ pendingErr ≠ none) ∧
     (∀ m, pendingErr = some m →
       (sc_sock_finish_connect s pendingErr).2.1.err = setErr m) ∧
     (pendingErr = none →
       (sc_sock_finish_connect s pendingErr).1 = SC_SOCK_OK ∧
       (sc_sock_finish_connect s pendingErr).2.2 = SockState.connected)) := by
  constructor
  · have hred : sc_sock_connect s OsConnect.inProgress = (SC_SOCK_WANT_WRITE, s) := by
      simp [sc_sock_connect, h]
    rw [hred]
    refine ⟨rfl, ?_, rfl⟩
    intro hc
    exact absurd (show SC_SOCK_WANT_WRITE = SC_SOCK_ERROR from hc) (by decide)
  · cases pendingErr with
    | none =>
      refine ⟨⟨?_, fun hc => absurd rfl hc⟩, ?_, ?_⟩
      · intro hc
        exact absurd (show SC_SOCK_OK = SC_SOCK_ERROR from hc) (by decide)
      · intro m hm
        exact absurd hm (by simp)
      · intro _
        exact ⟨rfl, rfl⟩
    | some m =>
      refine ⟨⟨fun _ hc => Option.noConfusion hc, fun _ => rfl⟩, ?_, ?_⟩
      · intro m2 hm
        injection hm with h2
        subst h2
        rfl
      · intro hc
        exact absurd hc (by simp)

theorem c2_nonblocking_connect_two_phase_witness :
    sock0.blocking = false ∧
    (sc_sock_connect sock0 OsConnect.inProgress).1 = SC_SOCK_WANT_WRITE ∧
    (sc_sock_finish_connect sock0 none).1 = SC_SOCK_OK ∧
    (sc_sock_finish_connect sock0 none).2.2 = SockState.connected :=
  ⟨rfl, (c2_nonblocking_connect_two_phase sock0 rfl none).1.1,
   ((c2_nonblocking_connect_two_phase sock0 rfl none).2.2.2 rfl).1,
   ((c2_nonblocking_connect_two_phase sock0 rfl none).2.2.2 rfl).2⟩

/-- C5: accept on a non-blocking listener with nothing pending returns
the same `SC_SOCK_WANT_READ` sentinel that recv returns on would-block
(so callers can share retry logic); every other failure returns the
generic `SC_SOCK_ERROR`. -/
theorem c5_accept_want_read (s : sc_sock) (h : s.blocking = false) (m : List Char) :
    (sc_sock_accept s OsAccept.wouldBlock).1 = SC_SOCK_WANT_READ ∧
    (sc_sock_accept s OsAccept.wouldBlock).1 = (sc_sock_recv s OsTransfer.wouldBlock).1 ∧
    (sc_sock_accept s (OsAccept.fail m)).1 = SC_SOCK_ERROR := by
  have hred : sc_sock_accept s OsAccept.wouldBlock = (SC_SOCK_WANT_READ, s) := by
    simp [sc_sock_accept, h]
  rw [hred]
  exact ⟨rfl, rfl, rfl⟩

theorem c5_accept_want_read_witness :
    (sc_sock_accept sock0 OsAccept.wouldBlock).1 = SC_SOCK_WANT_READ ∧
    (sc_sock_accept sock0 OsAccept.wouldBlock).1 =
      (sc_sock_recv sock0 OsTransfer.wouldBlock).1 ∧
    (sc_sock_accept sock0 (OsAccept.fail ['x'])).1 = SC_SOCK_ERROR :=
  c5_accept_want_read sock0 rfl ['x']

/-- C3: the event mask enumerants are None = 0, Read = 1, Write = 2,
combinable by bitwise OR; and every ready index returned by a wait
call carries the event mask of the OS readiness condition of some
polled descriptor, with both the Read and Write bits reported together
whenever the descriptor was closed or errored. -/
theorem c3_event_mask_values (p : sc_sock_poll) (t : Int) (l : List (Int × OsEvent))
    (n : Int) (p2 : sc_sock_poll)
    (hw : sc_sock_poll_wait p t (OsWait.ready l) = (n, p2))
    (i : Nat) (hi : i < p2.results.length) :
    (SC_SOCK_NONE = 0 ∧ SC_SOCK_READ = 1 ∧ SC_SOCK_WRITE = 2 ∧
     (SC_SOCK_READ ||| SC_SOCK_WRITE) = 3) ∧
    ∃ q ∈ l, sc_sock_poll_event p2 i = eventMaskOf q.2 ∧
      (q.2.closedOrError = true →
        sc_sock_poll_event p2 i = (SC_SOCK_READ ||| SC_SOCK_WRITE)) := by
  have hw2 := (wait_ready_eq p t l).symm.trans hw
  injection hw2 with hn hp2
  refine ⟨⟨rfl, rfl, rfl, rfl⟩, ?_⟩
  have hgd : p2.results.getD i (0, 0) = p2.results[i] := by
    rw [List.getD_eq_getElem?_getD, List.getElem?_eq_getElem hi, Option.getD_some]
  have hmem : p2.results.getD i (0, 0) ∈ p2.results := by
    rw [hgd]
    exact List.getElem_mem hi
  have hres : p2.results = readyResults p.entries l := by rw [← hp2]
  rw [hres] at hmem
  obtain ⟨e, he, q, hq, hx, hnz⟩ := mem_readyResults hmem
  refine ⟨q, hq, ?_, ?_⟩
  · show (p2.results.getD i (0, 0)).2 = eventMaskOf q.2
    rw [hres, hx]
  · intro hc
    show (p2.results.getD i (0, 0)).2 = SC_SOCK_READ ||| SC_SOCK_WRITE
    rw [hres, hx]
    simp [eventMaskOf, hc]

theorem c3_event_mask_values_witness :
    (SC_SOCK_NONE = 0 ∧ SC_SOCK_READ = 1 ∧ SC_SOCK_WRITE = 2 ∧
     (SC_SOCK_READ ||| SC_SOCK_WRITE) = 3) ∧
    ∃ q ∈ waitList0, sc_sock_poll_event poll0w 0 = eventMaskOf q.2 ∧
      (q.2.closedOrError = true →
        sc_sock_poll_event poll0w 0 = (SC_SOCK_READ ||| SC_SOCK_WRITE)) :=
  c3_event_mask_values poll0 100 waitList0 1 poll0w (by decide) 0 (by decide)

/-- C6: a wait call's timeout is interpreted as zero = poll once,
negative = block indefinitely, positive = block up to that budget;
a successful wait returns the non-negative count of entries ready for
this call only (the event buffer is repopulated from this call's
outcome alone, membership untouched), each retrievable by index
through the data/event accessors; a hard polling failure returns the
negative `SC_SOCK_ERROR`, so zero is a valid no-events result distinct
from failure. -/
theorem c6_wait_contract (p : sc_sock_poll) (t : Int) (l : List (Int × OsEvent))
    (n : Int) (p2 : sc_sock_poll) (m : List Char)
    (hw : sc_sock_poll_wait p t (OsWait.ready l) = (n, p2)) :
    (waitMode 0 = WaitMode.pollOnce ∧
     (t < 0 → waitMode t = WaitMode.blockIndefinitely) ∧
     (0 < t → waitMode t = WaitMode.upTo t.toNat)) ∧
    (0 ≤ n ∧ n = (p2.results.length : Int) ∧
     p2.results = readyResults p.entries l ∧ p2.entries = p.entries) ∧
    (∀ i, i < p2.results.length →
      (sc_sock_poll_data p2 i, sc_sock_poll_event p2 i) ∈ p2.results) ∧
    ((sc_sock_poll_wait p t (OsWait.fail m)).1 = SC_SOCK_ERROR ∧
     SC_SOCK_ERROR < 0) := by
  have hw2 := (wait_ready_eq p t l).symm.trans hw
  injection hw2 with hn hp2
  refine ⟨⟨rfl, ?_, ?_⟩, ⟨?_, ?_, ?_, ?_⟩, ?_, rfl, by decide⟩
  · intro ht
    unfold waitMode
    rw [if_neg (by omega), if_pos ht]
  · intro ht
    unfold waitMode
    rw [if_neg (by omega), if_neg (by omega)]
  · rw [← hn]
    exact Int.natCast_nonneg _
  · rw [← hn, ← hp2]
  · rw [← hp2]
  · rw [← hp2]
  · intro i hi
    have hx : (sc_sock_poll_data p2 i, sc_sock_poll_event p2 i) =
        p2.results.getD i (0, 0) := rfl
    rw [hx, List.getD_eq_getElem?_getD, List.getElem?_eq_getElem hi, Option.getD_some]
    exact List.getElem_mem hi

theorem c6_wait_contract_witness :
    (waitMode 0 = WaitMode.pollOnce ∧
     ((0 : Int) < 0 → waitMode 0 = WaitMode.blockIndefinitely) ∧
     ((0 : Int) > 0 → waitMode 0 = WaitMode.upTo (0 : Int).toNat)) ∧
    ((0 : Int) ≤ 0 ∧ (0 : Int) = (poll0.results.length : Int) ∧
     poll0.results = readyResults poll0.entries [] ∧ poll0.entries = poll0.entries) ∧
    (∀ i, i < poll0.results.length →
      (sc_sock_poll_data poll0 i, sc_sock_poll_event poll0 i) ∈ poll0.results) ∧
    ((sc_sock_poll_wait poll0 0 (OsWait.fail ['x'])).1 = SC_SOCK_ERROR ∧
     SC_SOCK_ERROR < 0) :=
  c6_wait_contract poll0 0 [] 0 poll0 ['x'] (by decide)

/-- C7: adding a descriptor that is already registered with a
different interest mutates the existing registration — the new
direction(s) are OR-ed into the registered mask — without creating a
duplicate entry (the entry count is unchanged) and without clearing
any direction already registered (every bit of the old mask survives
in the new one). -/
theorem c7_add_merges_interest (p : sc_sock_poll) (fdt : sc_sock_fd) (events : Nat)
    (d : Int) (e : PollEntry) (he : findEntry p fdt.fd = some e)
    (n : Int) (p2 : sc_sock_poll)
    (hw : sc_sock_poll_add p fdt events d OsCtl.ok = (n, p2)) :
    n = SC_SOCK_OK ∧
    p2.entries.length = p.entries.length ∧
    findEntry p2 fdt.fd = some { e with mask := e.mask ||| events, data := d } ∧
    (∀ b, e.mask.testBit b = true → (e.mask ||| events).testBit b = true) := by
  have he2 : p.entries.find? (fun x => x.fd == fdt.fd) = some e := he
  have hmem : e ∈ p.entries := List.mem_of_find?_eq_some he2
  have hpred : (e.fd == fdt.fd) = true :=
    List.find?_some (p := fun x : PollEntry => x.fd == fdt.fd) (a := e) he2
  have hany : p.entries.any (fun x => x.fd == fdt.fd) = true :=
    List.any_eq_true.mpr ⟨e, hmem, hpred⟩
  have hw2 := (add_ok_entries_existing p fdt events d hany).symm.trans hw
  injection hw2 with hn hp2
  refine ⟨hn.symm, ?_, ?_, ?_⟩
  · rw [← hp2]
    simp
  · rw [← hp2]
    exact find?_map_update fdt.fd
      (fun x => { x with mask := x.mask ||| events, data := d })
      (fun x => rfl) p.entries e he
  · intro b hb
    rw [Nat.testBit_or, hb]
    rfl

theorem c7_add_merges_interest_witness :
    (SC_SOCK_OK : Int) = SC_SOCK_OK ∧
    poll0a.entries.length = poll0.entries.length ∧
    findEntry poll0a fdt0.fd = some { entry0 with mask := entry0.mask ||| 2, data := 43 } ∧
    (∀ b, entry0.mask.testBit b = true → (entry0.mask ||| 2).testBit b = true) :=
  c7_add_merges_interest poll0 fdt0 2 43 entry0 (by decide) SC_SOCK_OK poll0a (by decide)

/-- C8: a del that removes a handle's last remaining interest
direction removes the registration entirely from backend bookkeeping
(no surviving entry carries its descriptor); and provided its user
data identified that handle alone, no subsequent sequence of wait
calls ever reports that user data again. -/
theorem c8_del_last_direction_silences (p : sc_sock_poll) (fdt : sc_sock_fd)
    (events : Nat) (d : Int)
    (hlast : ∀ e ∈ p.entries, e.fd = fdt.fd → maskDel e.mask events = 0)
    (hd : ∀ e ∈ p.entries, e.data = d → e.fd = fdt.fd)
    (n : Int) (p2 : sc_sock_poll)
    (hw : sc_sock_poll_del p fdt events OsCtl.ok = (n, p2)) :
    (∀ e ∈ p2.entries, e.fd ≠ fdt.fd) ∧
    ∀ ws : List (Int × OsWait), d ∉ reportedData p2 ws := by
  have hw2 := (del_ok_eq p fdt events).symm.trans hw
  injection hw2 with hn hp2
  have hfd : ∀ e ∈ p2.entries, e.fd ≠ fdt.fd ∧ e.data ≠ d := by
    intro e hemem
    rw [← hp2] at hemem
    have hemem2 : e ∈ (p.entries.map (fun x =>
        if x.fd == fdt.fd then { x with mask := maskDel x.mask events }
        else x)).filter (fun x => x.mask != 0) := hemem
    rw [List.mem_filter] at hemem2
    obtain ⟨hmap, hnz⟩ := hemem2
    rw [List.mem_map] at hmap
    obtain ⟨e0, he0, heq⟩ := hmap
    by_cases hfd0 : (e0.fd == fdt.fd) = true
    · exfalso
      rw [if_pos hfd0] at heq
      have h0 : maskDel e0.mask events = 0 := hlast e0 he0 (by simpa using hfd0)
      rw [← heq] at hnz
      simp [h0] at hnz
    · rw [if_neg hfd0] at heq
      subst heq
      have hne : e0.fd ≠ fdt.fd := by simpa using hfd0
      exact ⟨hne, fun hdd => hne (hd e0 he0 hdd)⟩
  refine ⟨fun e he => (hfd e he).1, ?_⟩
  intro ws
  exact reportedData_not_mem d ws p2 (fun e he => (hfd e he).2)

theorem c8_del_last_direction_silences_witness :
    (∀ e ∈ poll0d.entries, e.fd ≠ fdt0.fd) ∧
    ∀ ws : List (Int × OsWait), (42 : Int) ∉ reportedData poll0d ws :=
  c8_del_last_direction_silences poll0 fdt0 1 42 (by decide) (by decide)
    SC_SOCK_OK poll0d (by decide)

/-- C9 counterexample: `struct sc_sock_pipe` embeds exactly one Handle
(the `fdt` field); the two channel ends `fds[2]` are raw descriptors,
not Handles — so a Pipe does not own two Handles. -/
theorem c9_counterexample_one_handle :
    (sc_sock_pipe_handles pipe0).length = 1 ∧
    ¬ (sc_sock_pipe_handles pipe0).length = 2 := by
  decide

/-- C9 (amended): every Pipe owns one Handle together with a
descriptor pair forming one logical channel; init creates both ends of
the pair (storing them in `fds`) and returns success; term closes both
ends. -/
theorem c9_pipe_pair (t a b : Int) (p : sc_sock_pipe) (os : OsCtl) :
    (sc_sock_pipe_handles (sc_sock_pipe_init t (OsPipeCreate.ok a b)).2).length = 1 ∧
    (sc_sock_pipe_init t (OsPipeCreate.ok a b)).2.fds = (a, b) ∧
    (sc_sock_pipe_init t (OsPipeCreate.ok a b)).1 = SC_SOCK_OK ∧
    (sc_sock_pipe_term p os).2.2 = [p.fds.1, p.fds.2] := by
  refine ⟨rfl, rfl, rfl, ?_⟩
  cases os <;> rfl

end ScSock
